import Mathlib

/-!
Shallow embedding of `src/Application.py` (AI-Powered Interview Bot).

The program is a Streamlit script: the function `main` is re-executed from the
top on every user interaction, reading and mutating a persistent
`st.session_state` dictionary.  We embed the session state as `SessionState`,
one full execution of `main` as the pure function `runMain`, the CSV results
file as an optional list of rows (`none` = file does not exist), and the
`audios/` directory as an association list from path to bytes.

External collaborators (the Groq LLM chains, the Whisper transcription API,
and the widget values returned by Streamlit) are inputs of a single run,
collected in the `Input` structure: the embedding is parametric in what they
return, and a transcription failure is an `Except.error`.

Python `st.rerun()` raises an exception that aborts the current script run;
we model this by returning early with exit code `RunExit.rerun`.  An uncaught
Python exception (IndexError on the question list, or a transcription
failure propagating out of `transcribe_audio_file`) likewise ends the run,
with the session state left as already mutated.
-/

/-- A recorded answer: `{"audio": path, "text": transcription}` as stored in
`st.session_state.responses` (Application.py line 174). -/
structure Response where
  audio : String
  text : String
deriving Repr, DecidableEq

/-- A Python `dict` from question text to `Response`: insertion-ordered
association list; assignment to an existing key overwrites in place,
assignment to a fresh key appends. -/
def dictInsert : List (String × Response) → String → Response → List (String × Response)
  | [], k, v => [(k, v)]
  | (k', v') :: rest, k, v =>
      if k' = k then (k', v) :: rest else (k', v') :: dictInsert rest k v

/-- Python `dict` lookup (`d[k]` / `d.get(k)`): first binding for the key. -/
def dictGet? : List (String × Response) → String → Option Response
  | [], _ => none
  | (k', v') :: rest, k => if k' = k then some v' else dictGet? rest k

/-- Python `k in d` membership test. -/
def dictContains (d : List (String × Response)) (k : String) : Bool :=
  (dictGet? d k).isSome

/-- Number of bindings carrying a given key (1 at most in any dict built by
`dictInsert` from the empty dict). -/
def countKey (d : List (String × Response)) (k : String) : Nat :=
  (d.filter (fun p => p.1 = k)).length

/-- The `audios/` directory: paths to byte contents; `open(path, "wb")`
truncates, so writing an existing path overwrites it. -/
def fileWrite : List (String × List Nat) → String → List Nat → List (String × List Nat)
  | [], p, b => [(p, b)]
  | (p', b') :: rest, p, b =>
      if p' = p then (p', b) :: rest else (p', b') :: fileWrite rest p b

/-- Contents of a stored file, if present. -/
def fileGet? : List (String × List Nat) → String → Option (List Nat)
  | [], _ => none
  | (p', b') :: rest, p => if p' = p then some b' else fileGet? rest p

/-- The persistent `st.session_state` of Application.py (lines 114-126),
after the one-time default initialisation. -/
structure SessionState where
  questions : List String
  current_question : Nat
  responses : List (String × Response)
  interview_complete : Bool
  greeting_done : Bool
  greeting_text : String
  candidate_name : String
  role : String
  description : String
deriving Repr, DecidableEq

/-- Widget values and external-service results observed during one execution
of `main`.  Buttons are `true` exactly on the run following their click;
`audioBytes` is `some` exactly on the run after a recording finished;
`transcribeResult` is what the Whisper call would yield (`error` models
`transcribe_audio_file` raising). -/
structure Input where
  nameField : String := ""
  submitNameClicked : Bool := false
  titleField : String := ""
  descField : String := ""
  startClicked : Bool := false
  audioBytes : Option (List Nat) := none
  prevClicked : Bool := false
  nextClicked : Bool := false
  finishClicked : Bool := false
  greetingResult : String := ""
  questionsResult : String := ""
  transcribeResult : Except Unit String := Except.ok ""
  evalResult : String := ""
deriving Repr

/-- How one execution of `main` ended: fell off the end, called `st.rerun()`,
or aborted with an uncaught exception. -/
inductive RunExit where
  | finished
  | rerun
  | indexError
  | transcriptionError
deriving Repr, DecidableEq

/-- Result of one execution of `main`: the session state, the CSV results
file (`none` = not yet created), the audio files on disk, and the exit. -/
structure RunResult where
  state : SessionState
  sink : Option (List (List String))
  files : List (String × List Nat)
  exit : RunExit
deriving Repr, DecidableEq

/-- Header row written by `save_results_csv` (Application.py line 97). -/
def csvHeader : List String :=
  ["Candidate Name", "Role", "Question", "Audio File", "Transcribed Answer", "Evaluation Summary"]

/-- `save_results_csv` (Application.py lines 92-99): checks
`os.path.isfile` first, opens in append mode, writes the header only when
the file did not yet exist, then one row per entry of `responses`. -/
def save_results_csv (candidate_name roleTitle : String)
    (responses : List (String × Response)) (eval_result : String)
    (csvFile : Option (List (List String))) : Option (List (List String)) :=
  let rows := responses.map
    (fun p => [candidate_name, roleTitle, p.1, p.2.audio, p.2.text, eval_result])
  match csvFile with
  | none => some (csvHeader :: rows)
  | some existing => some (existing ++ rows)

/-- Number of rows of the CSV file (0 when the file does not exist). -/
def csvRowCount : Option (List (List String)) → Nat
  | none => 0
  | some rows => rows.length

/-- Number of header rows in the CSV file. -/
def csvHeaderCount : Option (List (List String)) → Nat
  | none => 0
  | some rows => (rows.filter (fun r => r = csvHeader)).length

/-- Drop leading whitespace characters from a character list. -/
def dropLeadingSpace : List Char → List Char
  | [] => []
  | c :: cs => if c.isWhitespace then dropLeadingSpace cs else c :: cs

/-- Python `str.strip()` (for the common whitespace characters): remove
leading and trailing whitespace. -/
def pytrim (s : String) : String :=
  String.mk (List.reverse (dropLeadingSpace (List.reverse (dropLeadingSpace s.data))))

/-- Split a character list at newline characters (keeping empty pieces). -/
def splitAtNewlines : List Char → List (List Char)
  | [] => [[]]
  | c :: cs =>
    if c = '\n' then [] :: splitAtNewlines cs
    else
      match splitAtNewlines cs with
      | [] => [[c]]
      | l :: ls => (c :: l) :: ls

/-- Python `str.splitlines` for LF-separated text: the pieces between
newline characters.  (Unlike Python, a trailing newline yields a final
empty piece; the blank-line filter of `parseQuestions` makes the two
readings agree.) -/
def splitlines (s : String) : List String :=
  (splitAtNewlines s.data).map String.mk

/-- The question-list construction of Application.py line 152:
`[q.strip() for q in raw.splitlines() if q.strip()]` — keep each line whose
whitespace-trimmed form is non-empty, as its trimmed form, in order.
No enumeration markup is removed: the code only trims whitespace. -/
def parseQuestions (raw : String) : List String :=
  (splitlines raw).filterMap
    (fun q => if pytrim q = "" then none else some (pytrim q))

/-- Python `candidate.replace(" ", "_")`: a single-character replacement is
a character map. -/
def underscoreSpaces (s : String) : String :=
  String.mk (s.data.map (fun c => if c = ' ' then '_' else c))

/-- Audio path of Application.py lines 170-172 and `save_audio` (lines
27-33): `audios/` + candidate name with spaces replaced by underscores +
`_Q` + (index+1) + `.wav`. -/
def qaPath (candidate_name : String) (idx : Nat) : String :=
  "audios/" ++ underscoreSpaces candidate_name ++ "_Q" ++ toString (idx + 1) ++ ".wav"

/-- Lifecycle phase, read off the branch `main` takes for a given stored
state (lines 129, 137, 162, 191).  The script stores no evaluation text, so
the evaluation branch re-runs on every execution while
`interview_complete` holds; we call that branch `Completed`. -/
inductive Phase where
  | AwaitingName
  | AwaitingGreeting
  | AwaitingRole
  | Interviewing
  | Completed
deriving Repr, DecidableEq

/-- The branch of `main` selected by a stored state: the name prompt when no
candidate name is stored (line 129), the greeting call when `greeting_done`
is unset (line 137), the evaluation block when `interview_complete` is set
(line 191), the Q-and-A block when questions exist (line 162), and otherwise
only the role form. -/
def phase (s : SessionState) : Phase :=
  if s.candidate_name = "" then Phase.AwaitingName
  else if s.greeting_done = false then Phase.AwaitingGreeting
  else if s.interview_complete = true then Phase.Completed
  else if s.questions = [] then Phase.AwaitingRole
  else Phase.Interviewing

/-- The data fields of the session named by the spec's determinism rule
(candidate, greetingText, role, questions, answers); the script stores no
`evaluationText` field at all. -/
def dataFields (s : SessionState) :
    String × String × String × List String × List (String × Response) :=
  (s.candidate_name, s.greeting_text, s.role, s.questions, s.responses)

/-- Evaluation block of `main` (lines 190-198): when `interview_complete`
is set, evaluate and append to the CSV file; otherwise nothing. -/
def runEval (s : SessionState) (sink : Option (List (List String)))
    (files : List (String × List Nat)) (inp : Input) : RunResult :=
  if s.interview_complete = true then
    ⟨s, save_results_csv s.candidate_name s.role s.responses inp.evalResult sink,
      files, RunExit.finished⟩
  else
    ⟨s, sink, files, RunExit.finished⟩

/-- Navigation buttons of `main` (lines 178-188): rendered only when the
current question text is a key of `responses`; Previous when `idx > 0`,
Next when `idx < len(questions) - 1`, else Finish when
`idx == len(questions) - 1`; each click mutates the state and reruns. -/
def runNav (s : SessionState) (q_text : String) (sink : Option (List (List String)))
    (files : List (String × List Nat)) (inp : Input) : RunResult :=
  if dictContains s.responses q_text = true then
    if 0 < s.current_question ∧ inp.prevClicked = true then
      ⟨{ s with current_question := s.current_question - 1 }, sink, files, RunExit.rerun⟩
    else if s.current_question < s.questions.length - 1 ∧ inp.nextClicked = true then
      ⟨{ s with current_question := s.current_question + 1 }, sink, files, RunExit.rerun⟩
    else if s.current_question = s.questions.length - 1 ∧ inp.finishClicked = true then
      ⟨{ s with interview_complete := true }, sink, files, RunExit.rerun⟩
    else runEval s sink files inp
  else runEval s sink files inp

/-- Q-and-A block of `main` (lines 161-188): active when questions exist and
the interview is not complete.  Reads `questions[current_question]`
(IndexError aborts the run), saves any recorded audio to disk BEFORE
transcribing, aborts the run on transcription failure with no answer stored,
on success overwrites `responses[q_text]`, then offers navigation. -/
def runQA (s : SessionState) (sink : Option (List (List String)))
    (files : List (String × List Nat)) (inp : Input) : RunResult :=
  if s.questions ≠ [] ∧ s.interview_complete = false then
    match s.questions.get? s.current_question with
    | none => ⟨s, sink, files, RunExit.indexError⟩
    | some q_text =>
      match inp.audioBytes with
      | some bytes =>
        let path := qaPath s.candidate_name s.current_question
        let files2 := fileWrite files path bytes
        match inp.transcribeResult with
        | Except.error _ => ⟨s, sink, files2, RunExit.transcriptionError⟩
        | Except.ok t =>
          runNav { s with responses := dictInsert s.responses q_text ⟨path, pytrim t⟩ }
            q_text sink files2 inp
      | none => runNav s q_text sink files inp
  else runEval s sink files inp

/-- One full execution of `main` (Application.py lines 110-198) over the
stored session state, the CSV file, the audio directory and this run's
widget/service inputs.  Mirrors the script top to bottom: name gate
(lines 129-134), greeting (lines 137-140), role form whose text inputs
reassign `role` and `description` every run (lines 146-147), the Start
Interview branch (lines 148-157), the Q-and-A block and the evaluation
block.  Every `st.rerun()` ends the run. -/
def runMain (s : SessionState) (sink : Option (List (List String)))
    (files : List (String × List Nat)) (inp : Input) : RunResult :=
  if s.candidate_name = "" then
    if inp.submitNameClicked = true ∧ pytrim inp.nameField ≠ "" then
      ⟨{ s with candidate_name := pytrim inp.nameField }, sink, files, RunExit.rerun⟩
    else
      ⟨s, sink, files, RunExit.finished⟩
  else if s.greeting_done = false then
    ⟨{ s with greeting_text := inp.greetingResult, greeting_done := true },
      sink, files, RunExit.rerun⟩
  else
    let s1 : SessionState := { s with role := inp.titleField, description := inp.descField }
    if inp.startClicked = true ∧ pytrim s1.role ≠ "" ∧ pytrim s1.description ≠ "" then
      ⟨{ s1 with questions := parseQuestions inp.questionsResult,
                 current_question := 0, responses := [], interview_complete := false },
        sink, files, RunExit.rerun⟩
    else
      runQA s1 sink files inp

/-!
Helper lemmas shared by the claim theorems.
-/

/-- Looking up the key just written by `dictInsert` yields the written value. -/
theorem dictGet?_insert_self (d : List (String × Response)) (k : String) (v : Response) :
    dictGet? (dictInsert d k v) k = some v := by
  induction d with
  | nil => simp [dictInsert, dictGet?]
  | cons p rest ih =>
    obtain ⟨k', v'⟩ := p
    by_cases h : k' = k
    · simp [dictInsert, dictGet?, h]
    · simp [dictInsert, dictGet?, h, ih]

/-- A just-written key is a member of the dict. -/
theorem dictContains_insert_self (d : List (String × Response)) (k : String) (v : Response) :
    dictContains (dictInsert d k v) k = true := by
  simp [dictContains, dictGet?_insert_self]

/-- `countKey` over a cons cell. -/
theorem countKey_cons (k' : String) (v' : Response) (rest : List (String × Response))
    (k : String) :
    countKey ((k', v') :: rest) k = (if k' = k then 1 else 0) + countKey rest k := by
  by_cases h : k' = k
  · simp [countKey, List.filter, h]
    omega
  · simp [countKey, List.filter, h]

/-- Writing a key into a dict that holds it at most once leaves it held
exactly once. -/
theorem countKey_insert_self (d : List (String × Response)) (k : String) (v : Response)
    (h : countKey d k ≤ 1) :
    countKey (dictInsert d k v) k = 1 := by
  induction d with
  | nil => simp [dictInsert, countKey]
  | cons p rest ih =>
    obtain ⟨k', v'⟩ := p
    by_cases hk : k' = k
    · rw [countKey_cons] at h
      rw [if_pos hk] at h
      have hrest : countKey rest k = 0 := by omega
      simp [dictInsert, hk, countKey_cons, hrest]
    · rw [countKey_cons, if_neg hk] at h
      simp only [dictInsert, if_neg hk]
      rw [countKey_cons, if_neg hk, ih (by omega)]

/-- Reading the file just written by `fileWrite` yields the written bytes. -/
theorem fileGet?_write_self (fs : List (String × List Nat)) (p : String) (b : List Nat) :
    fileGet? (fileWrite fs p b) p = some b := by
  induction fs with
  | nil => simp [fileWrite, fileGet?]
  | cons e rest ih =>
    obtain ⟨p', b'⟩ := e
    by_cases h : p' = p
    · simp [fileWrite, fileGet?, h]
    · simp [fileWrite, fileGet?, h, ih]

/-- `get?` at an in-range index is `some` of the `getD` value. -/
theorem get?_eq_some_getD (l : List String) (n : Nat) (h : n < l.length) :
    l.get? n = some (l.getD n "") := by
  rw [List.getD_eq_get?, List.get?_eq_get h]
  rfl

/-- Once the candidate name is set and the greeting is done, a run with no
Start Interview click reaches the Q-and-A block, with the role fields
reassigned from the widgets first (Application.py lines 146-147). -/
theorem runMain_eq_runQA (s : SessionState) (sink : Option (List (List String)))
    (files : List (String × List Nat)) (inp : Input)
    (hname : s.candidate_name ≠ "") (hg : s.greeting_done = true)
    (hstart : inp.startClicked = false) :
    runMain s sink files inp =
      runQA { s with role := inp.titleField, description := inp.descField } sink files inp := by
  unfold runMain
  rw [if_neg hname, if_neg (by simp [hg]), if_neg (by simp [hstart])]

/-- In the Q-and-A block with no audio recorded, the run proceeds directly
to the navigation buttons for the current question. -/
theorem runQA_no_audio (s : SessionState) (sink : Option (List (List String)))
    (files : List (String × List Nat)) (inp : Input)
    (hq : s.questions ≠ []) (hnc : s.interview_complete = false)
    (hidx : s.current_question < s.questions.length)
    (haudio : inp.audioBytes = none) :
    runQA s sink files inp =
      runNav s (s.questions.getD s.current_question "") sink files inp := by
  unfold runQA
  rw [if_pos ⟨hq, hnc⟩, get?_eq_some_getD _ _ hidx, haudio]

/-- In the Q-and-A block with audio recorded and transcription failing, the
run aborts: the audio file is on disk, but the session state is untouched
and no answer is stored (Application.py lines 169-174: the exception from
`transcribe_audio_file` propagates before the `responses` assignment). -/
theorem runQA_record_fail (s : SessionState) (sink : Option (List (List String)))
    (files : List (String × List Nat)) (inp : Input) (bytes : List Nat)
    (hq : s.questions ≠ []) (hnc : s.interview_complete = false)
    (hidx : s.current_question < s.questions.length)
    (haudio : inp.audioBytes = some bytes)
    (herr : inp.transcribeResult = Except.error ()) :
    runQA s sink files inp =
      ⟨s, sink, fileWrite files (qaPath s.candidate_name s.current_question) bytes,
        RunExit.transcriptionError⟩ := by
  unfold runQA
  rw [if_pos ⟨hq, hnc⟩, get?_eq_some_getD _ _ hidx, haudio, herr]

/-- In the Q-and-A block with audio recorded and transcription succeeding,
the trimmed transcript is stored under the current question's text and the
run proceeds to the navigation buttons. -/
theorem runQA_record_ok (s : SessionState) (sink : Option (List (List String)))
    (files : List (String × List Nat)) (inp : Input) (bytes : List Nat) (t : String)
    (hq : s.questions ≠ []) (hnc : s.interview_complete = false)
    (hidx : s.current_question < s.questions.length)
    (haudio : inp.audioBytes = some bytes)
    (hok : inp.transcribeResult = Except.ok t) :
    runQA s sink files inp =
      runNav
        { s with responses := (dictInsert s.responses (s.questions.getD s.current_question "")
            ⟨qaPath s.candidate_name s.current_question, pytrim t⟩) }
        (s.questions.getD s.current_question "") sink
        (fileWrite files (qaPath s.candidate_name s.current_question) bytes) inp := by
  unfold runQA
  rw [if_pos ⟨hq, hnc⟩, get?_eq_some_getD _ _ hidx, haudio, hok]

/-- After a stored answer, a run with no navigation click falls through the
buttons to the (inactive) evaluation block and just ends. -/
theorem runNav_no_click (s : SessionState) (q : String)
    (sink : Option (List (List String))) (files : List (String × List Nat)) (inp : Input)
    (hnc : s.interview_complete = false)
    (hans : dictContains s.responses q = true)
    (hp : inp.prevClicked = false) (hn : inp.nextClicked = false)
    (hf : inp.finishClicked = false) :
    runNav s q sink files inp = ⟨s, sink, files, RunExit.finished⟩ := by
  unfold runNav runEval
  rw [if_pos hans, if_neg (by simp [hp]), if_neg (by simp [hn]), if_neg (by simp [hf]),
    if_neg (by simp [hnc])]

/-- One full run that records an answer and clicks nothing: the state change
is exactly the widget reassignment of the role fields plus the overwrite of
`responses` at the current question's text. -/
theorem runMain_record_state (s : SessionState) (sink : Option (List (List String)))
    (files : List (String × List Nat)) (inp : Input) (bytes : List Nat) (t : String)
    (hname : s.candidate_name ≠ "") (hg : s.greeting_done = true)
    (hq : s.questions ≠ []) (hnc : s.interview_complete = false)
    (hidx : s.current_question < s.questions.length)
    (hstart : inp.startClicked = false) (haudio : inp.audioBytes = some bytes)
    (hok : inp.transcribeResult = Except.ok t)
    (hp : inp.prevClicked = false) (hn : inp.nextClicked = false)
    (hf : inp.finishClicked = false) :
    runMain s sink files inp =
      ⟨{ s with
           role := inp.titleField
           description := inp.descField
           responses := (dictInsert s.responses (s.questions.getD s.current_question "")
             ⟨qaPath s.candidate_name s.current_question, pytrim t⟩) },
        sink, fileWrite files (qaPath s.candidate_name s.current_question) bytes,
        RunExit.finished⟩ := by
  rw [runMain_eq_runQA s sink files inp hname hg hstart]
  rw [runQA_record_ok { s with role := inp.titleField, description := inp.descField } sink files
    inp bytes t hq hnc hidx haudio hok]
  exact runNav_no_click _ _ sink _ inp hnc (dictContains_insert_self _ _ _) hp hn hf

/-- A Previous Question click on an answered question with a positive
cursor moves the cursor one step back and reruns. -/
theorem runNav_prev_click (s : SessionState) (q : String)
    (sink : Option (List (List String))) (files : List (String × List Nat)) (inp : Input)
    (hans : dictContains s.responses q = true)
    (hpos : 0 < s.current_question) (hp : inp.prevClicked = true) :
    runNav s q sink files inp =
      ⟨{ s with current_question := s.current_question - 1 }, sink, files, RunExit.rerun⟩ := by
  unfold runNav
  rw [if_pos hans, if_pos ⟨hpos, hp⟩]

/-- A Next Question click on an answered question before the last index
moves the cursor one step forward and reruns. -/
theorem runNav_next_click (s : SessionState) (q : String)
    (sink : Option (List (List String))) (files : List (String × List Nat)) (inp : Input)
    (hans : dictContains s.responses q = true) (hp : inp.prevClicked = false)
    (hlt : s.current_question < s.questions.length - 1) (hn : inp.nextClicked = true) :
    runNav s q sink files inp =
      ⟨{ s with current_question := s.current_question + 1 }, sink, files, RunExit.rerun⟩ := by
  unfold runNav
  rw [if_pos hans, if_neg (by simp [hp]), if_pos ⟨hlt, hn⟩]

/-- One full run whose only interaction is a Previous Question click, on an
answered current question with a positive cursor. -/
theorem runMain_prev_click (s : SessionState) (sink : Option (List (List String)))
    (files : List (String × List Nat)) (inp : Input)
    (hname : s.candidate_name ≠ "") (hg : s.greeting_done = true)
    (hq : s.questions ≠ []) (hnc : s.interview_complete = false)
    (hidx : s.current_question < s.questions.length)
    (hstart : inp.startClicked = false) (haudio : inp.audioBytes = none)
    (hans : dictContains s.responses (s.questions.getD s.current_question "") = true)
    (hpos : 0 < s.current_question) (hp : inp.prevClicked = true) :
    runMain s sink files inp =
      ⟨{ s with
           role := inp.titleField
           description := inp.descField
           current_question := s.current_question - 1 },
        sink, files, RunExit.rerun⟩ := by
  rw [runMain_eq_runQA s sink files inp hname hg hstart]
  rw [runQA_no_audio { s with role := inp.titleField, description := inp.descField }
    sink files inp hq hnc hidx haudio]
  exact runNav_prev_click { s with role := inp.titleField, description := inp.descField }
    _ sink files inp hans hpos hp

/-- One full run whose only interaction is a Next Question click, on an
answered current question strictly before the last index. -/
theorem runMain_next_click (s : SessionState) (sink : Option (List (List String)))
    (files : List (String × List Nat)) (inp : Input)
    (hname : s.candidate_name ≠ "") (hg : s.greeting_done = true)
    (hq : s.questions ≠ []) (hnc : s.interview_complete = false)
    (hidx : s.current_question < s.questions.length)
    (hstart : inp.startClicked = false) (haudio : inp.audioBytes = none)
    (hans : dictContains s.responses (s.questions.getD s.current_question "") = true)
    (hp : inp.prevClicked = false)
    (hlt : s.current_question < s.questions.length - 1) (hn : inp.nextClicked = true) :
    runMain s sink files inp =
      ⟨{ s with
           role := inp.titleField
           description := inp.descField
           current_question := s.current_question + 1 },
        sink, files, RunExit.rerun⟩ := by
  rw [runMain_eq_runQA s sink files inp hname hg hstart]
  rw [runQA_no_audio { s with role := inp.titleField, description := inp.descField }
    sink files inp hq hnc hidx haudio]
  exact runNav_next_click { s with role := inp.titleField, description := inp.descField }
    _ sink files inp hans hp hlt hn

/-!
Claim C1.
-/

/-- A completed one-question session: "Ava" answered the single question and
clicked Finish Interview on an earlier run. -/
def c1State : SessionState :=
  { questions := ["Q1"], current_question := 0,
    responses := [("Q1", ⟨"audios/Ava_Q1.wav", "ans"⟩)],
    interview_complete := true, greeting_done := true, greeting_text := "g",
    candidate_name := "Ava", role := "Dev", description := "d" }

/-- A run with no widget interaction at all (for instance, Streamlit
re-executing the script after any unrelated event). -/
def c1Idle : Input := { titleField := "Dev", descField := "d", evalResult := "E" }

/-- The first execution of `main` after completion, starting from no CSV
file, and the re-execution right after it. -/
def c1FirstRun : RunResult := runMain c1State none [] c1Idle

/-- The second execution of `main` while the session is still complete. -/
def c1SecondRun : RunResult :=
  runMain c1FirstRun.state c1FirstRun.sink c1FirstRun.files c1Idle

/-- Claim C1 is false on the code: persistence is NOT triggered exactly once
per completed session.  The evaluation block of `main` (lines 190-198) runs
on EVERY execution while `interview_complete` is set, so after one completed
session with one answered question, a single re-execution leaves the sink
with 3 rows instead of the claimed 1 + 1 = 2 (the data row is duplicated;
the header, however, is not). -/
theorem C1_counterexample :
    csvRowCount c1SecondRun.sink = 3 ∧
    csvHeaderCount c1SecondRun.sink = 1 ∧
    ¬ csvRowCount c1SecondRun.sink = 1 + 1 := by
  decide

/-- Claim C1 (amended): every execution of `main` in the completed phase
triggers persistence, appending exactly one row per stored response; the
header row is written only when the CSV file does not yet exist, so it is
never duplicated.  The sink therefore holds 1 + sum of (responses per
persisting execution) rows, not 1 + one contribution per session. -/
theorem C1_amended_persistence (s : SessionState) (sink : Option (List (List String)))
    (files : List (String × List Nat)) (inp : Input)
    (hname : s.candidate_name ≠ "") (hg : s.greeting_done = true)
    (hc : s.interview_complete = true) (hstart : inp.startClicked = false) :
    (runMain s sink files inp).sink =
      some ((sink.getD [csvHeader]) ++ s.responses.map (fun p =>
        [s.candidate_name, inp.titleField, p.1, p.2.audio, p.2.text, inp.evalResult])) := by
  rw [runMain_eq_runQA s sink files inp hname hg hstart]
  simp only [runQA, runEval, save_results_csv, hc]
  cases sink <;> simp

/-- Witness for C1 (amended) at a concrete completed session with an
existing single-header sink: the run appends exactly the one data row and
does not repeat the header. -/
theorem C1_amended_persistence_witness :
    (runMain c1State (some [csvHeader]) [] c1Idle).sink =
      some [csvHeader, ["Ava", "Dev", "Q1", "audios/Ava_Q1.wav", "ans", "E"]] := by
  have h := C1_amended_persistence c1State (some [csvHeader]) [] c1Idle
    (by decide) rfl rfl rfl
  simpa using h

/-!
Claim C2.
-/

/-- An interviewing session of "Ava" with one generated question and the
interview not yet finished. -/
def c2A : SessionState :=
  { questions := ["Q1"], current_question := 0, responses := [],
    interview_complete := false, greeting_done := true, greeting_text := "g",
    candidate_name := "Ava", role := "Dev", description := "d" }

/-- The same data fields as `c2A`, but with the stored `interview_complete`
flag set (as after clicking Finish Interview). -/
def c2B : SessionState :=
  { questions := ["Q1"], current_question := 0, responses := [],
    interview_complete := true, greeting_done := true, greeting_text := "g",
    candidate_name := "Ava", role := "Dev", description := "d" }

/-- A session agreeing with `c2A` on all fields that determine the phase,
differing only in the job description text. -/
def c2C : SessionState :=
  { questions := ["Q1"], current_question := 0, responses := [],
    interview_complete := false, greeting_done := true, greeting_text := "g",
    candidate_name := "Ava", role := "Dev", description := "other" }

/-- Claim C2 is false on the code: the phase is NOT a pure function of the
data fields (candidate, greetingText, role, questions, answers) alone.
`main` branches on the independently stored flags `interview_complete`
(line 162/191) and `greeting_done` (line 137): the two states `c2A` and
`c2B` agree on every data field yet select different branches. -/
theorem C2_counterexample :
    dataFields c2A = dataFields c2B ∧ phase c2A ≠ phase c2B := by
  decide

/-- Claim C2 (amended): the phase is a pure function of the stored session
fields — the data fields together with the stored boolean flags
`greeting_done` and `interview_complete` — and recomputing it from the same
stored values always yields the same phase. -/
theorem C2_amended_phase_function (s t : SessionState)
    (hdata : dataFields s = dataFields t)
    (hgd : s.greeting_done = t.greeting_done)
    (hic : s.interview_complete = t.interview_complete) :
    phase s = phase t := by
  simp only [dataFields, Prod.mk.injEq] at hdata
  obtain ⟨hc, hg2, hr, hq, hresp⟩ := hdata
  simp [phase, hc, hq, hgd, hic]

/-- Witness for C2 (amended): two concrete states differing only in a field
the phase does not read (the job description) get the same phase. -/
theorem C2_amended_phase_function_witness : phase c2A = phase c2C := by
  exact C2_amended_phase_function c2A c2C (by decide) rfl rfl

/-!
Claim C3.
-/

/-- A five-question interviewing session at cursor 0 with nothing answered
(the spec's scenario for an early Finish click). -/
def c3S : SessionState :=
  { questions := ["A", "B", "C", "D", "E"], current_question := 0, responses := [],
    interview_complete := false, greeting_done := true, greeting_text := "g",
    candidate_name := "Ava", role := "Dev", description := "d" }

/-- A run whose only interaction is the Finish Interview click, the role
widgets untouched. -/
def c3Fin : Input := { titleField := "Dev", descField := "d", finishClicked := true }

/-- Claim C3: in the Interviewing phase, the Finish Interview transition
succeeds exactly when the cursor is at the last question index and that
question's text has a recorded answer; in every other interviewing state the
transition is not applied and the session state — cursor included — is
unchanged (Application.py lines 178-188: the Finish button only exists at
the last index once the current question is answered, so an out-of-guard
finish is a no-op for the session). -/
theorem C3_finish_guard (s : SessionState) (sink : Option (List (List String)))
    (files : List (String × List Nat)) (inp : Input)
    (hname : s.candidate_name ≠ "") (hg : s.greeting_done = true)
    (hq : s.questions ≠ []) (hnc : s.interview_complete = false)
    (hidx : s.current_question < s.questions.length)
    (hstart : inp.startClicked = false) (haudio : inp.audioBytes = none)
    (hp : inp.prevClicked = false) (hn : inp.nextClicked = false)
    (hf : inp.finishClicked = true)
    (htitle : inp.titleField = s.role) (hdesc : inp.descField = s.description) :
    ((s.current_question = s.questions.length - 1 ∧
        dictContains s.responses (s.questions.getD s.current_question "") = true) →
      (runMain s sink files inp).state = { s with interview_complete := true }) ∧
    (¬ (s.current_question = s.questions.length - 1 ∧
        dictContains s.responses (s.questions.getD s.current_question "") = true) →
      (runMain s sink files inp).state = s) := by
  have hmain : runMain s sink files inp =
      runNav s (s.questions.getD s.current_question "") sink files inp := by
    rw [runMain_eq_runQA s sink files inp hname hg hstart, htitle, hdesc]
    exact runQA_no_audio s sink files inp hq hnc hidx haudio
  constructor
  · rintro ⟨hcur, hans⟩
    rw [hmain]
    unfold runNav
    rw [if_pos hans, if_neg (by simp [hp]), if_neg (by simp [hn]), if_pos ⟨hcur, hf⟩]
  · intro hno
    rw [hmain]
    unfold runNav
    by_cases hans : dictContains s.responses (s.questions.getD s.current_question "") = true
    · rw [if_pos hans, if_neg (by simp [hp]), if_neg (by simp [hn]),
        if_neg (fun hcl => hno ⟨hcl.1, hans⟩)]
      unfold runEval
      rw [if_neg (by simp [hnc])]
    · rw [if_neg hans]
      unfold runEval
      rw [if_neg (by simp [hnc])]

/-- Witness for C3 at the spec's scenario: Finish clicked at cursor 0 of a
five-question session with nothing answered — the session is unchanged,
still interviewing at cursor 0. -/
theorem C3_finish_guard_witness :
    (runMain c3S none [] c3Fin).state = c3S ∧
    (runMain c3S none [] c3Fin).state.current_question = 0 ∧
    phase (runMain c3S none [] c3Fin).state = Phase.Interviewing := by
  have h := (C3_finish_guard c3S none [] c3Fin (by decide) rfl (by decide) rfl (by decide)
    rfl rfl rfl rfl rfl rfl rfl).2 (by decide)
  refine ⟨h, ?_, ?_⟩
  · rw [h]
    rfl
  · rw [h]
    decide

/-!
Claim C4.
-/

/-- A three-question interviewing session at cursor 0 with no recorded
answer for the current question. -/
def c4S : SessionState :=
  { questions := ["A", "B", "C"], current_question := 0, responses := [],
    interview_complete := false, greeting_done := true, greeting_text := "g",
    candidate_name := "Ava", role := "Dev", description := "d" }

/-- A run whose only interaction is a Next Question click. -/
def c4Next : Input := { titleField := "Dev", descField := "d", nextClicked := true }

/-- A run whose only interaction is a Previous Question click. -/
def c4Prev : Input := { titleField := "Dev", descField := "d", prevClicked := true }

/-- The session `c4S` at cursor 1 with the current question answered. -/
def c4T : SessionState :=
  { questions := ["A", "B", "C"], current_question := 1,
    responses := [("B", ⟨"audios/Ava_Q2.wav", "ans"⟩)],
    interview_complete := false, greeting_done := true, greeting_text := "g",
    candidate_name := "Ava", role := "Dev", description := "d" }

/-- Claim C4 is false on the code: moving away from an unanswered question
is NOT permitted.  The navigation buttons are rendered only when the current
question's text is a key of `responses` (Application.py line 178): at cursor
0 of a three-question session with no recorded answer, a Next click leaves
the session unchanged at cursor 0 instead of moving to index 1. -/
theorem C4_counterexample :
    (runMain c4S none [] c4Next).state = c4S ∧
    (runMain c4S none [] c4Next).state.current_question = 0 := by
  decide

/-- Claim C4 (amended): navigation moves one step at a time and is offered
only once the current question's text has a recorded answer; under that
guard both directions are permitted — Previous whenever the cursor is
positive, Next whenever it is before the last index — regardless of whether
any other question is answered. -/
theorem C4_amended_navigation (s : SessionState) (sink : Option (List (List String)))
    (files : List (String × List Nat)) (inpP inpN : Input)
    (hname : s.candidate_name ≠ "") (hg : s.greeting_done = true)
    (hq : s.questions ≠ []) (hnc : s.interview_complete = false)
    (hidx : s.current_question < s.questions.length)
    (hans : dictContains s.responses (s.questions.getD s.current_question "") = true)
    (hPs : inpP.startClicked = false) (hPa : inpP.audioBytes = none)
    (hPp : inpP.prevClicked = true)
    (hNs : inpN.startClicked = false) (hNa : inpN.audioBytes = none)
    (hNp : inpN.prevClicked = false) (hNn : inpN.nextClicked = true) :
    (0 < s.current_question →
      (runMain s sink files inpP).state.current_question = s.current_question - 1 ∧
      (runMain s sink files inpP).state.responses = s.responses ∧
      (runMain s sink files inpP).state.questions = s.questions) ∧
    (s.current_question < s.questions.length - 1 →
      (runMain s sink files inpN).state.current_question = s.current_question + 1 ∧
      (runMain s sink files inpN).state.responses = s.responses ∧
      (runMain s sink files inpN).state.questions = s.questions) := by
  constructor
  · intro hpos
    rw [runMain_prev_click s sink files inpP hname hg hq hnc hidx hPs hPa hans hpos hPp]
    exact ⟨rfl, rfl, rfl⟩
  · intro hlt
    rw [runMain_next_click s sink files inpN hname hg hq hnc hidx hNs hNa hans hNp hlt hNn]
    exact ⟨rfl, rfl, rfl⟩

/-- Witness for C4 (amended) at cursor 1 of a three-question session whose
current question is answered: Previous reaches cursor 0 and Next reaches
cursor 2. -/
theorem C4_amended_navigation_witness :
    (runMain c4T none [] c4Prev).state.current_question = 0 ∧
    (runMain c4T none [] c4Next).state.current_question = 2 := by
  have h := C4_amended_navigation c4T none [] c4Prev c4Next (by decide) rfl (by decide) rfl
    (by decide) (by decide) rfl rfl rfl rfl rfl rfl rfl
  exact ⟨(h.1 (by decide)).1, (h.2 (by decide)).1⟩

/-!
Claim C5.
-/

/-- A two-question interviewing session at cursor 0 with nothing answered. -/
def c5S : SessionState :=
  { questions := ["A", "B"], current_question := 0, responses := [],
    interview_complete := false, greeting_done := true, greeting_text := "g",
    candidate_name := "Ava", role := "Dev", description := "d" }

/-- A run in which audio was recorded (empty-audio bytes) and the
transcription call fails. -/
def c5Rec : Input :=
  { titleField := "Dev", descField := "d", audioBytes := some [1, 2],
    transcribeResult := Except.error () }

/-- Claim C5: when the transcription port fails (including on empty audio),
no answer is stored for the current question, the session state is
unchanged, and the phase remains Interviewing; no empty transcript is
stored in place of the failure (Application.py lines 168-176: the exception
of `transcribe_audio_file` propagates before the `responses` assignment). -/
theorem C5_transcription_failure (s : SessionState) (sink : Option (List (List String)))
    (files : List (String × List Nat)) (inp : Input) (bytes : List Nat)
    (hname : s.candidate_name ≠ "") (hg : s.greeting_done = true)
    (hq : s.questions ≠ []) (hnc : s.interview_complete = false)
    (hidx : s.current_question < s.questions.length)
    (hstart : inp.startClicked = false)
    (haudio : inp.audioBytes = some bytes)
    (herr : inp.transcribeResult = Except.error ())
    (htitle : inp.titleField = s.role) (hdesc : inp.descField = s.description) :
    (runMain s sink files inp).state = s ∧
    (runMain s sink files inp).exit = RunExit.transcriptionError ∧
    phase (runMain s sink files inp).state = Phase.Interviewing := by
  have hmain : runMain s sink files inp =
      ⟨s, sink, fileWrite files (qaPath s.candidate_name s.current_question) bytes,
        RunExit.transcriptionError⟩ := by
    rw [runMain_eq_runQA s sink files inp hname hg hstart, htitle, hdesc]
    exact runQA_record_fail s sink files inp bytes hq hnc hidx haudio herr
  refine ⟨by rw [hmain], by rw [hmain], ?_⟩
  rw [hmain]
  simp [phase, hname, hg, hnc, hq]

/-- Witness for C5: a failing transcription on the concrete session `c5S`
leaves the session exactly as it was, still Interviewing. -/
theorem C5_transcription_failure_witness :
    (runMain c5S none [] c5Rec).state = c5S ∧
    (runMain c5S none [] c5Rec).exit = RunExit.transcriptionError ∧
    phase (runMain c5S none [] c5Rec).state = Phase.Interviewing := by
  exact C5_transcription_failure c5S none [] c5Rec [1, 2] (by decide) rfl (by decide) rfl
    (by decide) rfl rfl rfl rfl rfl

/-!
Claim C6.
-/

/-- Claim C6 is false on the code: question parsing does NOT strip leading
enumeration markup, and `len ≥ 1` is not guaranteed.  Application.py line
152 only whitespace-trims the lines of the LLM output (which the prompt
asks to be numbered), so "1. " prefixes survive; and a blank output parses
to the empty list. -/
theorem C6_counterexample :
    parseQuestions "" = [] ∧
    ¬ (parseQuestions "").length ≥ 1 ∧
    parseQuestions "1. Tell me about yourself.\n2. Why this role?" =
      ["1. Tell me about yourself.", "2. Why this role?"] ∧
    ("1. Tell me about yourself.".data.take 2 = ['1', '.']) := by
  decide

/-- Claim C6 (amended): question generation yields, in order, exactly the
whitespace-trimmed non-blank lines of the generated text; every produced
question is non-empty, but leading enumeration numbering is retained
verbatim and the sequence may be empty when the text has no non-blank
line. -/
theorem C6_amended_parse (raw q : String) (hq : q ∈ parseQuestions raw) :
    q ≠ "" ∧ ∃ line ∈ splitlines raw, q = pytrim line := by
  unfold parseQuestions at hq
  rw [List.mem_filterMap] at hq
  obtain ⟨l, hl, hq2⟩ := hq
  by_cases h : pytrim l = ""
  · rw [if_pos h] at hq2
    cases hq2
  · rw [if_neg h] at hq2
    obtain rfl := Option.some.inj hq2
    exact ⟨h, l, hl, rfl⟩

/-- Witness for C6 (amended) at a concrete one-line numbered output. -/
theorem C6_amended_parse_witness :
    ("1. A" : String) ≠ "" ∧ ∃ line ∈ splitlines "1. A", "1. A" = pytrim line := by
  exact C6_amended_parse "1. A" "1. A" (by decide)

/-!
Claim C7.
-/

/-- A two-question interviewing session at cursor 0 with nothing answered. -/
def c7S : SessionState :=
  { questions := ["A", "B"], current_question := 0, responses := [],
    interview_complete := false, greeting_done := true, greeting_text := "g",
    candidate_name := "Ava", role := "Dev", description := "d" }

/-- First recording at cursor 0. -/
def c7Rec1 : Input :=
  { titleField := "Dev", descField := "d", audioBytes := some [1],
    transcribeResult := Except.ok "first" }

/-- Re-recording at cursor 0 with a different transcript. -/
def c7Rec2 : Input :=
  { titleField := "Dev", descField := "d", audioBytes := some [2],
    transcribeResult := Except.ok " second " }

/-- Claim C7: recording twice at the same index leaves exactly one answer
for that index, equal to the latest call's payload — Application.py line
174 assigns `st.session_state.responses[q_text]`, which overwrites rather
than appends. -/
theorem C7_record_overwrite (s : SessionState) (sink : Option (List (List String)))
    (files : List (String × List Nat)) (inp1 inp2 : Input)
    (b1 b2 : List Nat) (t1 t2 : String)
    (hname : s.candidate_name ≠ "") (hg : s.greeting_done = true)
    (hq : s.questions ≠ []) (hnc : s.interview_complete = false)
    (hidx : s.current_question < s.questions.length)
    (hcnt : countKey s.responses (s.questions.getD s.current_question "") ≤ 1)
    (h1s : inp1.startClicked = false) (h1a : inp1.audioBytes = some b1)
    (h1t : inp1.transcribeResult = Except.ok t1) (h1p : inp1.prevClicked = false)
    (h1n : inp1.nextClicked = false) (h1f : inp1.finishClicked = false)
    (h2s : inp2.startClicked = false) (h2a : inp2.audioBytes = some b2)
    (h2t : inp2.transcribeResult = Except.ok t2) (h2p : inp2.prevClicked = false)
    (h2n : inp2.nextClicked = false) (h2f : inp2.finishClicked = false) :
    dictGet? (runMain (runMain s sink files inp1).state sink files inp2).state.responses
        (s.questions.getD s.current_question "") =
      some ⟨qaPath s.candidate_name s.current_question, pytrim t2⟩ ∧
    countKey (runMain (runMain s sink files inp1).state sink files inp2).state.responses
        (s.questions.getD s.current_question "") = 1 := by
  rw [runMain_record_state s sink files inp1 b1 t1 hname hg hq hnc hidx h1s h1a h1t h1p h1n h1f]
  dsimp only
  rw [runMain_record_state
    { s with
        role := inp1.titleField
        description := inp1.descField
        responses := (dictInsert s.responses (s.questions.getD s.current_question "")
          ⟨qaPath s.candidate_name s.current_question, pytrim t1⟩) }
    sink files inp2 b2 t2 hname hg hq hnc hidx h2s h2a h2t h2p h2n h2f]
  dsimp only
  constructor
  · exact dictGet?_insert_self _ _ _
  · exact countKey_insert_self _ _ _ (le_of_eq (countKey_insert_self _ _ _ hcnt))

/-- Witness for C7: two recordings at cursor 0 of `c7S` leave exactly one
answer for question "A", holding the second transcript (trimmed). -/
theorem C7_record_overwrite_witness :
    dictGet? (runMain (runMain c7S none [] c7Rec1).state none [] c7Rec2).state.responses "A" =
      some ⟨"audios/Ava_Q1.wav", "second"⟩ ∧
    countKey (runMain (runMain c7S none [] c7Rec1).state none [] c7Rec2).state.responses "A" = 1 := by
  have h := C7_record_overwrite c7S none [] c7Rec1 c7Rec2 [1] [2] "first" " second "
    (by decide) rfl (by decide) rfl (by decide) (by decide)
    rfl rfl rfl rfl rfl rfl rfl rfl rfl rfl rfl rfl
  exact h

/-!
Claim C8.
-/

/-- A finished session of "Ava" with stale questions and answers. -/
def c8S : SessionState :=
  { questions := ["Old1", "Old2"], current_question := 1,
    responses := [("Old1", ⟨"audios/Ava_Q1.wav", "x"⟩)],
    interview_complete := true, greeting_done := true, greeting_text := "g",
    candidate_name := "Ava", role := "Dev", description := "d" }

/-- A Start Interview resubmission with a fresh non-empty role and a fresh
two-question generation result. -/
def c8Start : Input :=
  { titleField := "QA Engineer", descField := "Testing web apps",
    startClicked := true, questionsResult := "1. A\n2. B" }

/-- Claim C8: resubmitting Start Interview with non-empty title,
description and generated questions overwrites the prior question list,
resets the cursor to 0 and the answers mapping to empty, and leaves the
candidate unchanged (Application.py lines 148-157). -/
theorem C8_restart_frame (s : SessionState) (sink : Option (List (List String)))
    (files : List (String × List Nat)) (inp : Input)
    (hname : s.candidate_name ≠ "") (hg : s.greeting_done = true)
    (hstart : inp.startClicked = true)
    (htitle : pytrim inp.titleField ≠ "") (hdesc : pytrim inp.descField ≠ "")
    (hqs : parseQuestions inp.questionsResult ≠ []) :
    (runMain s sink files inp).state.questions = parseQuestions inp.questionsResult ∧
    (runMain s sink files inp).state.current_question = 0 ∧
    (runMain s sink files inp).state.responses = [] ∧
    (runMain s sink files inp).state.interview_complete = false ∧
    (runMain s sink files inp).state.candidate_name = s.candidate_name ∧
    (runMain s sink files inp).exit = RunExit.rerun := by
  unfold runMain
  rw [if_neg hname, if_neg (by simp [hg])]
  dsimp only
  rw [if_pos ⟨hstart, htitle, hdesc⟩]
  exact ⟨rfl, rfl, rfl, rfl, rfl, rfl⟩

/-- Witness for C8: restarting from the finished session `c8S` installs the
two fresh questions, clears cursor and answers, and keeps the candidate. -/
theorem C8_restart_frame_witness :
    (runMain c8S none [] c8Start).state.questions = ["1. A", "2. B"] ∧
    (runMain c8S none [] c8Start).state.current_question = 0 ∧
    (runMain c8S none [] c8Start).state.responses = [] ∧
    (runMain c8S none [] c8Start).state.candidate_name = "Ava" := by
  have h := C8_restart_frame c8S none [] c8Start (by decide) rfl rfl
    (by decide) (by decide) (by decide)
  refine ⟨?_, h.2.1, h.2.2.1, ?_⟩
  · rw [h.1]
    decide
  · rw [h.2.2.2.2.1]
    rfl

/-!
Claim C10.
-/

/-- Claim C10: on every answer-recording attempt the audio bytes are saved
to `audios/<name>_Q<idx+1>.wav` before transcription is attempted
(Application.py lines 170-173), so when transcription then fails the audio
file is on disk even though no answer was recorded. -/
theorem C10_audio_persists (s : SessionState) (sink : Option (List (List String)))
    (files : List (String × List Nat)) (inp : Input) (bytes : List Nat)
    (hname : s.candidate_name ≠ "") (hg : s.greeting_done = true)
    (hq : s.questions ≠ []) (hnc : s.interview_complete = false)
    (hidx : s.current_question < s.questions.length)
    (hstart : inp.startClicked = false)
    (haudio : inp.audioBytes = some bytes)
    (herr : inp.transcribeResult = Except.error ()) :
    fileGet? (runMain s sink files inp).files (qaPath s.candidate_name s.current_question) =
      some bytes ∧
    (runMain s sink files inp).state.responses = s.responses ∧
    (runMain s sink files inp).exit = RunExit.transcriptionError := by
  rw [runMain_eq_runQA s sink files inp hname hg hstart]
  rw [runQA_record_fail { s with role := inp.titleField, description := inp.descField }
    sink files inp bytes hq hnc hidx haudio herr]
  exact ⟨fileGet?_write_self files _ bytes, rfl, rfl⟩

/-- Witness for C10: after a failed transcription on `c5S`-like data, the
recorded bytes are on disk under Ava's question-1 path and no answer is
stored. -/
theorem C10_audio_persists_witness :
    fileGet? (runMain c5S none [] c5Rec).files "audios/Ava_Q1.wav" = some [1, 2] ∧
    (runMain c5S none [] c5Rec).state.responses = [] ∧
    (runMain c5S none [] c5Rec).exit = RunExit.transcriptionError := by
  have h := C10_audio_persists c5S none [] c5Rec [1, 2] (by decide) rfl (by decide) rfl
    (by decide) rfl rfl rfl
  exact h

/-!
Claim C9.
-/

/-- A session whose two generated questions have identical text `t`. -/
def c9S (t : String) : SessionState :=
  { questions := [t, t], current_question := 0, responses := [],
    interview_complete := false, greeting_done := true, greeting_text := "g",
    candidate_name := "Ava", role := "Dev", description := "d" }

/-- A recording run with audio bytes `b` and transcript `tr`. -/
def c9Rec (b : List Nat) (tr : String) : Input :=
  { titleField := "Dev", descField := "d", audioBytes := some b,
    transcribeResult := Except.ok tr }

/-- A Next Question click. -/
def c9Next : Input := { titleField := "Dev", descField := "d", nextClicked := true }

/-- The session after recording transcript `a1` at cursor 0. -/
def c9S1 (t a1 : String) : SessionState :=
  { questions := [t, t], current_question := 0,
    responses := [(t, ⟨"audios/Ava_Q1.wav", pytrim a1⟩)],
    interview_complete := false, greeting_done := true, greeting_text := "g",
    candidate_name := "Ava", role := "Dev", description := "d" }

/-- The session after then moving to cursor 1. -/
def c9S2 (t a1 : String) : SessionState := { c9S1 t a1 with current_question := 1 }

/-- The session after re-recording transcript `a2` at cursor 1. -/
def c9S3 (t a2 : String) : SessionState :=
  { questions := [t, t], current_question := 1,
    responses := [(t, ⟨"audios/Ava_Q2.wav", pytrim a2⟩)],
    interview_complete := false, greeting_done := true, greeting_text := "g",
    candidate_name := "Ava", role := "Dev", description := "d" }

/-- Claim C9: answers are keyed by question text, not by position
(Application.py line 174).  For any session whose two question positions
carry the same text `t`: after recording at position 0, the code's check
for position 1's question already finds an answer; recording at position 1
overwrites the position-0 answer (the stored audio path now points at the
Q2 file); and the answers mapping ends with fewer entries (one) than there
are questions (two). -/
theorem C9_text_key_collision (t a1 a2 : String) :
    dictContains (runMain (c9S t) none [] (c9Rec [1] a1)).state.responses
        ((c9S t).questions.getD 1 "") = true ∧
    (runMain (runMain (runMain (c9S t) none [] (c9Rec [1] a1)).state none [] c9Next).state
        none [] (c9Rec [2] a2)).state.responses =
      [(t, ⟨"audios/Ava_Q2.wav", pytrim a2⟩)] ∧
    (runMain (runMain (runMain (c9S t) none [] (c9Rec [1] a1)).state none [] c9Next).state
        none [] (c9Rec [2] a2)).state.responses.length < (c9S t).questions.length := by
  have hq1 : qaPath "Ava" 0 = "audios/Ava_Q1.wav" := by decide
  have hq2 : qaPath "Ava" 1 = "audios/Ava_Q2.wav" := by decide
  have e1 : (runMain (c9S t) none [] (c9Rec [1] a1)).state = c9S1 t a1 := by
    rw [runMain_record_state (c9S t) none [] (c9Rec [1] a1) [1] a1
      (show ("Ava" : String) ≠ "" by decide) rfl (List.cons_ne_nil t [t])
      rfl (show (0 : Nat) < 2 by decide) rfl rfl rfl rfl rfl rfl]
    simp [c9S, c9S1, c9Rec, dictInsert, hq1]
  have e2 : (runMain (c9S1 t a1) none [] c9Next).state = c9S2 t a1 := by
    rw [runMain_next_click (c9S1 t a1) none [] c9Next
      (show ("Ava" : String) ≠ "" by decide) rfl (List.cons_ne_nil t [t])
      rfl (show (0 : Nat) < 2 by decide) rfl rfl
      (by simp [c9S1, dictContains, dictGet?]) rfl
      (show (0 : Nat) < 2 - 1 by decide) rfl]
    simp [c9S1, c9S2, c9Next]
  have e3 : (runMain (c9S2 t a1) none [] (c9Rec [2] a2)).state = c9S3 t a2 := by
    rw [runMain_record_state (c9S2 t a1) none [] (c9Rec [2] a2) [2] a2
      (show ("Ava" : String) ≠ "" by decide) rfl (List.cons_ne_nil t [t])
      rfl (show (1 : Nat) < 2 by decide) rfl rfl rfl rfl rfl rfl]
    simp [c9S1, c9S2, c9S3, c9Rec, dictInsert, hq2]
  refine ⟨?_, ?_, ?_⟩
  · rw [e1]
    simp [c9S, c9S1, dictContains, dictGet?]
  · rw [e1, e2, e3]
    rfl
  · rw [e1, e2, e3]
    simp [c9S3, c9S]
